import Mathlib

/-!
Shallow embedding of the core of `src/app.py` (school-van complaint tracker).

Modelling conventions, stated once:
* The SQLite `complaints` table is a `List Complaint` kept in rowid
  (insertion) order; `id INTEGER PRIMARY KEY AUTOINCREMENT` is modelled by
  `nextComplaintId` (max used id + 1).  Likewise for `users`.
* ISO-8601 timestamp strings are modelled as integer seconds; SQLite's
  lexicographic ordering and `date(...)` extraction on such strings agree
  with integer order and flooring division by 86400 (`dateOf`).
* Python float arithmetic in `compute_resolution_metrics` is modelled with
  exact rationals.
* `hashlib.sha256(...).hexdigest()` is modelled by an arbitrary function
  parameter `H : String → String`; collision-freedom (injectivity) is taken
  as an explicit hypothesis where a claim needs it.
* A SQL `UPDATE ... WHERE id = ?` is a map over the row list (rows keep
  their position); when the `WHERE` clause matches no row the statement
  completes normally affecting zero rows, which is why the run wrappers
  below always return `.ok`.
-/

namespace VanTracker

/-- Whitespace recognised by Python `str.strip()` (ASCII portion). -/
def isSpaceChar (c : Char) : Bool :=
  c == ' ' || c == '\t' || c == '\n' || c == '\r'

/-- Python `str.strip()`: remove leading and trailing whitespace. -/
def pyStrip (s : String) : String :=
  ⟨((s.data.dropWhile isSpaceChar).reverse.dropWhile isSpaceChar).reverse⟩

/-- Error taxonomy of the spec (section 7). -/
inductive AppError where
  | validationError
  | notFound
  | authenticationFailed
  | duplicateIdentity
deriving DecidableEq, Repr

/-- One row of the `complaints` table, fields in schema order
(`init_db`, src/app.py lines 45-60). -/
structure Complaint where
  id : Nat
  bus_number : Int
  complaint_datetime : Int
  problem_type : String
  details : String
  photo_paths : List String
  status : String
  org_response : Option String
  created_at : Int
  updated_at : Int
  resolved_at : Option Int
  chairman_reaction : Option String
deriving DecidableEq, Repr

/-- SQLite `date(t)` on an ISO timestamp, as the day number of a
seconds-since-epoch instant (flooring division). -/
def dateOf (t : Int) : Int := Int.fdiv t 86400

/-- `AUTOINCREMENT` id assignment: one more than the largest id ever used
(no deletes occur, so this is max of the stored ids plus one). -/
def nextComplaintId (store : List Complaint) : Nat :=
  (store.map Complaint.id).foldr max 0 + 1

/-- `insert_complaint` (src/app.py lines 89-121): inserts a row with
status `Open`, `created_at = updated_at = now`, NULL response, NULL
`resolved_at`, NULL reaction.  No validation happens here. -/
def insert_complaint (store : List Complaint) (bus_number : Int)
    (complaint_dt : Int) (problem_type details : String)
    (photo_paths : List String) (now : Int) : List Complaint :=
  let c : Complaint :=
    { id := nextComplaintId store
      bus_number := bus_number
      complaint_datetime := complaint_dt
      problem_type := problem_type
      details := details
      photo_paths := photo_paths
      status := "Open"
      org_response := none
      created_at := now
      updated_at := now
      resolved_at := none
      chairman_reaction := none }
  store ++ [c]

/-- The create operation as exposed to the reporter: the submission
handler in `principal_page` (src/app.py lines 482-505).  The only check
performed is `if not details.strip()`; on failure nothing is inserted.
The vehicle (bus) number is never validated. -/
def submit_complaint (store : List Complaint) (bus_number : Int)
    (complaint_dt : Int) (problem_type details : String)
    (photo_paths : List String) (now : Int) :
    Except AppError (List Complaint) :=
  if pyStrip details = "" then .error .validationError
  else .ok (insert_complaint store bus_number complaint_dt problem_type
    details photo_paths now)

/-- `update_complaint_status` (src/app.py lines 124-142).  The SQL sets
`status`, `org_response` and `updated_at` unconditionally on the matching
row, and sets `resolved_at` via
`CASE WHEN ? IS NULL THEN resolved_at ELSE ? END` where the bound value is
`now` exactly when the new status is the string `"Resolved"` (line 130),
with no look at the row's previous status. -/
def update_complaint_status (store : List Complaint) (complaint_id : Nat)
    (status : String) (response : Option String) (now : Int) :
    List Complaint :=
  store.map fun c =>
    if c.id = complaint_id then
      { c with status := status
               org_response := response
               updated_at := now
               resolved_at := if status = "Resolved" then some now
                 else c.resolved_at }
    else c

/-- Observable outcome of running `update_complaint_status`: the Python
function issues a single `UPDATE` and returns `None`; an `UPDATE` whose
`WHERE id = ?` clause matches no row completes normally (zero rows
affected), and the function never inspects the row count nor raises, so
the outcome is success for every input. -/
def update_complaint_status_run (store : List Complaint)
    (complaint_id : Nat) (status : String) (response : Option String)
    (now : Int) : Except AppError (List Complaint) :=
  .ok (update_complaint_status store complaint_id status response now)

/-- `set_chairman_reaction` (src/app.py lines 145-156): sets
`chairman_reaction` and `updated_at` on the matching row, nothing else. -/
def set_chairman_reaction (store : List Complaint) (complaint_id : Nat)
    (reaction : String) (now : Int) : List Complaint :=
  store.map fun c =>
    if c.id = complaint_id then
      { c with chairman_reaction := some reaction, updated_at := now }
    else c

/-- ASCII case folding used by SQLite `LIKE`: lower-case ASCII letters
compare equal to their upper-case forms; all other characters compare
byte-for-byte. -/
def likeFold (c : Char) : Char :=
  if 'a' ≤ c ∧ c ≤ 'z' then Char.ofNat (c.toNat - 32) else c

/-- All suffixes of a list, longest first, ending with `[]`. -/
def allTails {α : Type} : List α → List (List α)
  | [] => [[]]
  | a :: as => (a :: as) :: allTails as

/-- SQLite `LIKE` pattern matching (default, no ESCAPE): `%` matches any
sequence of characters, `_` matches exactly one character, and ordinary
characters match case-insensitively for ASCII. -/
def likeMatch : List Char → List Char → Bool
  | [], t => t.isEmpty
  | p :: ps, t =>
    if p == '%' then (allTails t).any fun t2 => likeMatch ps t2
    else
      match t with
      | [] => false
      | d :: t2 => (p == '_' || (likeFold p == likeFold d)) && likeMatch ps t2

/-- Row predicate built by `fetch_complaints` (src/app.py lines 159-184):
each optional filter appends one `AND` clause.  A `problem` filter adds
`problem_type LIKE '%' || problem || '%'`; an empty string is falsy in
Python and adds no clause, and likewise `status` equal to `""` or
`"All"` adds no clause.  Date bounds compare `date(complaint_datetime)`
inclusively. -/
def rowFilter (bus : Option Int) (problem : Option String)
    (status : Option String) (start_date end_date : Option Int)
    (c : Complaint) : Bool :=
  (match bus with
    | none => true
    | some b => c.bus_number == b) &&
  (match problem with
    | none => true
    | some p => p == "" || likeMatch ('%' :: p.toList ++ ['%']) c.problem_type.toList) &&
  (match status with
    | none => true
    | some s => s == "" || s == "All" || c.status == s) &&
  (match start_date with
    | none => true
    | some d => decide (d ≤ dateOf c.complaint_datetime)) &&
  (match end_date with
    | none => true
    | some d => decide (dateOf c.complaint_datetime ≤ d))

/-- The sort key of `ORDER BY complaint_datetime DESC`: `a` precedes `b`
when `a`'s timestamp is at least `b`'s. -/
def newestFirst (a b : Complaint) : Prop :=
  b.complaint_datetime ≤ a.complaint_datetime

instance : DecidableRel newestFirst := fun a b =>
  inferInstanceAs (Decidable (b.complaint_datetime ≤ a.complaint_datetime))

instance : IsTotal Complaint newestFirst :=
  ⟨fun a b => le_total b.complaint_datetime a.complaint_datetime⟩

instance : IsTrans Complaint newestFirst :=
  ⟨fun _ _ _ h1 h2 => le_trans h2 h1⟩

/-- `fetch_complaints` (src/app.py lines 159-190): filter then
`ORDER BY complaint_datetime DESC`.  The query names a single sort key;
rows with equal timestamps are emitted in the order of the underlying
table scan, i.e. stored (id ascending) order, modelled by a stable sort
of the store list. -/
def fetch_complaints (store : List Complaint) (bus : Option Int)
    (problem : Option String) (status : Option String)
    (start_date end_date : Option Int) : List Complaint :=
  List.insertionSort newestFirst
    (store.filter (rowFilter bus problem status start_date end_date))

/-- One row of the `users` table. -/
structure UserRec where
  id : Nat
  username : String
  password : String
  role : String
deriving DecidableEq, Repr

/-- `AUTOINCREMENT` id assignment for users. -/
def nextUserId (store : List UserRec) : Nat :=
  (store.map UserRec.id).foldr max 0 + 1

/-- `fetch_user` (src/app.py lines 78-86): hashes the presented password
with `H` (sha256 hex digest in the source), strips the username, and
selects the row matching both. -/
def fetch_user (H : String → String) (store : List UserRec)
    (username password : String) : Option UserRec :=
  store.find? fun u => u.username == pyStrip username && u.password == H password

/-- The sign-up path of `login` (src/app.py lines 397-410): hashes the
password, strips the username and inserts; the UNIQUE constraint on
`username` makes the insert fail when the username already exists, which
the handler reports as an error without changing the store. -/
def register_user (H : String → String) (store : List UserRec)
    (username password role : String) : Except AppError (List UserRec) :=
  if store.any (fun u => u.username == pyStrip username) then
    .error .duplicateIdentity
  else
    .ok (store ++
      [{ id := nextUserId store
         username := pyStrip username
         password := H password
         role := role }])

/-- The per-row resolution durations collected by
`compute_resolution_metrics` (src/app.py lines 614-618): for each row with
`resolved_at` set, `(resolved_at - created_at)` in hours. -/
def resolutionDurations (rows : List Complaint) : List ℚ :=
  rows.filterMap fun r =>
    r.resolved_at.map fun t => ((t - r.created_at : Int) : ℚ) / 3600

/-- The average-resolution-hours component of `compute_resolution_metrics`
(src/app.py line 622): `sum(durations) / len(durations)` when the list is
nonempty, `None` otherwise. -/
def averageResolutionHours (rows : List Complaint) : Option ℚ :=
  if (resolutionDurations rows).isEmpty then none
  else some ((resolutionDurations rows).sum
    / ((resolutionDurations rows).length : ℚ))

/-- `compute_resolution_metrics` (src/app.py lines 606-623): total count,
open count, resolved-today count, and the average resolution hours. -/
def compute_resolution_metrics (rows : List Complaint) (today : Int) :
    Nat × Nat × Nat × Option ℚ :=
  (rows.length,
   (rows.filter fun r => r.status == "Open").length,
   (rows.filter fun r =>
     match r.resolved_at with
     | some t => dateOf t == today
     | none => false).length,
   averageResolutionHours rows)

/-- Spec-side definition, from the words of section 4.4: the subset of
rows with `resolvedAt` present. -/
def specResolvedRows (rows : List Complaint) : List Complaint :=
  rows.filter fun r => r.resolved_at.isSome

/-- Spec-side definition, from the words of section 4.4: absent when no
row has `resolvedAt` set, otherwise the arithmetic mean over rows with
`resolvedAt` present of `(resolvedAt - createdAt)` in hours. -/
def specAverageResolutionHours (rows : List Complaint) : Option ℚ :=
  if (specResolvedRows rows).isEmpty then none
  else some (((specResolvedRows rows).map fun r =>
    ((r.resolved_at.getD 0 - r.created_at : Int) : ℚ) / 3600).sum
      / ((specResolvedRows rows).length : ℚ))

/-- Boolean prefix test on character lists (byte-for-byte). -/
def isPrefixB : List Char → List Char → Bool
  | [], _ => true
  | _ :: _, [] => false
  | a :: as, b :: bs => a == b && isPrefixB as bs

/-- Boolean case-sensitive substring test, the reading of
`categoryContains` in the spec (section 4.2). -/
def isInfixB (n : List Char) : List Char → Bool
  | [] => isPrefixB n []
  | c :: t => isPrefixB n (c :: t) || isInfixB n t

/-- A filter string free of the `LIKE` wildcards `%` and `_`. -/
def wildcardFree (n : List Char) : Bool :=
  n.all fun c => !(c == '%' || c == '_')

/-- Sample row: a resolved complaint (resolved at 100, created at 0). -/
def sample1 : Complaint :=
  { id := 1, bus_number := 12, complaint_datetime := 100,
    problem_type := "Delay", details := "fifteen minutes late",
    photo_paths := [], status := "Resolved", org_response := none,
    created_at := 0, updated_at := 0, resolved_at := some 100,
    chairman_reaction := none }

/-- Sample row: an open complaint with a stored organisation response. -/
def sampleResp : Complaint :=
  { id := 1, bus_number := 3, complaint_datetime := 50,
    problem_type := "Breakdown", details := "engine stalled",
    photo_paths := [], status := "Open", org_response := some "done",
    created_at := 0, updated_at := 0, resolved_at := none,
    chairman_reaction := none }

/-- Sample row: complaint with id 1 at timestamp 100 (tie partner A). -/
def tieA : Complaint :=
  { id := 1, bus_number := 5, complaint_datetime := 100,
    problem_type := "Fight", details := "argument on board",
    photo_paths := [], status := "Open", org_response := none,
    created_at := 0, updated_at := 0, resolved_at := none,
    chairman_reaction := none }

/-- Sample row: complaint with id 2 at the same timestamp 100 (tie
partner B). -/
def tieB : Complaint :=
  { id := 2, bus_number := 6, complaint_datetime := 100,
    problem_type := "Delay", details := "ten minutes late",
    photo_paths := [], status := "Open", org_response := none,
    created_at := 0, updated_at := 0, resolved_at := none,
    chairman_reaction := none }

/-- Sample row: category `Delay`, used for the `LIKE` case study. -/
def cDelay : Complaint :=
  { id := 1, bus_number := 7, complaint_datetime := 40,
    problem_type := "Delay", details := "slow traffic",
    photo_paths := [], status := "Open", org_response := none,
    created_at := 0, updated_at := 0, resolved_at := none,
    chairman_reaction := none }

/-- Sample row: a complaint resolved 5400 seconds (1.5 hours) after
creation. -/
def sampleHalf : Complaint :=
  { id := 1, bus_number := 12, complaint_datetime := 10,
    problem_type := "Delay", details := "fifteen minutes late",
    photo_paths := [], status := "Resolved",
    org_response := some "Driver rerouted", created_at := 0,
    updated_at := 5400, resolved_at := some 5400,
    chairman_reaction := none }

/-- The row produced by re-submitting status Resolved on `sample1` at
time 200. -/
def sample1resolved : Complaint :=
  { sample1 with status := "Resolved", org_response := none,
                 updated_at := 200, resolved_at := some 200 }

/-- The row produced by updating `sampleResp` to status In Progress with
an absent response at time 9. -/
def sampleRespUpdated : Complaint :=
  { sampleResp with status := "In Progress", org_response := none,
                    updated_at := 9 }

/-- The user store produced by registering ann as an Operator. -/
def annStore : List UserRec :=
  [{ id := 1, username := "ann", password := "pw123", role := "Operator" }]

/-! ## Helper lemmas -/

theorem map_eq_self {α : Type} (l : List α) (f : α → α)
    (h : ∀ a ∈ l, f a = a) : l.map f = l := by
  induction l with
  | nil => rfl
  | cons a l ih => simp_all

theorem map_map_eq {α β : Type} (l : List α) (g : α → α) (proj : α → β)
    (h : ∀ a ∈ l, proj (g a) = proj a) :
    (l.map g).map proj = l.map proj := by
  induction l with
  | nil => rfl
  | cons a l ih => simp_all

theorem find?_append_right {α : Type} (l1 l2 : List α) (p : α → Bool)
    (h : ∀ a ∈ l1, p a = false) : (l1 ++ l2).find? p = l2.find? p := by
  induction l1 with
  | nil => rfl
  | cons a l ih =>
    have ha := h a (by simp)
    simp only [List.cons_append, List.find?, ha]
    exact ih fun b hb => h b (by simp [hb])

/-! ## Claims -/

/-- C1: for every complaint, applying `update_complaint_status` with a new
status other than `Resolved` leaves `resolved_at` unchanged on every row
(it is never cleared); contrapositively, `resolved_at` is overwritten only
by an update whose new status is `Resolved`. -/
theorem C1_nonresolved_update_preserves_resolvedAt
    (store : List Complaint) (complaint_id : Nat) (status : String)
    (response : Option String) (now : Int) (h : status ≠ "Resolved") :
    (update_complaint_status store complaint_id status response now).map
        Complaint.resolved_at
      = store.map Complaint.resolved_at := by
  unfold update_complaint_status
  apply map_map_eq
  intro c _
  by_cases hc : c.id = complaint_id
  · simp [hc, h]
  · simp [hc]

/-- Witness for C1 at a concrete input: moving `sample1` (resolved at
100) to In Progress at time 200 keeps `resolved_at = some 100`. -/
theorem C1_nonresolved_update_preserves_resolvedAt_witness :
    ("In Progress" : String) ≠ "Resolved" ∧
    (update_complaint_status [sample1] 1 "In Progress" none 200).map
        Complaint.resolved_at
      = [sample1].map Complaint.resolved_at :=
  ⟨by decide, C1_nonresolved_update_preserves_resolvedAt [sample1] 1
    "In Progress" none 200 (by decide)⟩

/-- C2 counterexample: `sample1` already has status `Resolved` with
`resolved_at = some 100`; re-submitting status `Resolved` at time 200 is a
no-op transition, yet the code overwrites `resolved_at` with 200. -/
theorem C2_counterexample :
    sample1.status = "Resolved" ∧ sample1.resolved_at = some 100 ∧
    (update_complaint_status [sample1] 1 "Resolved" none 200).map
        Complaint.resolved_at
      = [some 200] := by decide

/-- C2 amended: `update_complaint_status` stamps `resolved_at := now` on
the targeted row whenever the new status is `Resolved`, regardless of the
row's current status — including a no-op re-submission of `Resolved`. -/
theorem C2_resolved_update_always_stamps
    (store : List Complaint) (complaint_id : Nat)
    (response : Option String) (now : Int) :
    ∀ c2 ∈ update_complaint_status store complaint_id "Resolved" response now,
      c2.id = complaint_id → c2.resolved_at = some now := by
  intro c2 hc2 hid
  unfold update_complaint_status at hc2
  rw [List.mem_map] at hc2
  obtain ⟨c, hc, rfl⟩ := hc2
  by_cases h : c.id = complaint_id
  · simp [h]
  · rw [if_neg h] at hid
    exact absurd hid h

/-- Witness for C2 (amended) at a concrete input. -/
theorem C2_resolved_update_always_stamps_witness :
    sample1resolved ∈ update_complaint_status [sample1] 1 "Resolved" none 200 ∧
    sample1resolved.resolved_at = some 200 :=
  ⟨by decide, C2_resolved_update_always_stamps [sample1] 1 none 200
    sample1resolved (by decide) (by decide)⟩

/-- C4 counterexample: updating id 1 in the empty store completes
successfully (`.ok`) with the store unchanged; no `NotFound` failure is
signalled even though no complaint has id 1. -/
theorem C4_counterexample :
    update_complaint_status_run [] 1 "Resolved" none 0 = .ok [] ∧
    ∀ c ∈ ([] : List Complaint), c.id ≠ 1 :=
  ⟨rfl, by simp⟩

/-- C4 amended: when no stored complaint has the targeted id, the
status/response update is a silent no-op — it completes successfully and
leaves the stored complaint set unchanged, rather than failing with
`NotFound`. -/
theorem C4_missing_id_silent_success
    (store : List Complaint) (complaint_id : Nat) (status : String)
    (response : Option String) (now : Int)
    (h : ∀ c ∈ store, c.id ≠ complaint_id) :
    update_complaint_status_run store complaint_id status response now
      = .ok store := by
  unfold update_complaint_status_run update_complaint_status
  congr 1
  apply map_eq_self
  intro c hc
  rw [if_neg (h c hc)]

/-- Witness for C4 (amended) at a concrete input. -/
theorem C4_missing_id_silent_success_witness :
    (∀ c ∈ [sample1], c.id ≠ 2) ∧
    update_complaint_status_run [sample1] 2 "Open" none 7 = .ok [sample1] :=
  ⟨by decide, C4_missing_id_silent_success [sample1] 2 "Open" none 7
    (by decide)⟩

/-- C9: `set_chairman_reaction` changes only `chairman_reaction` and
`updated_at`; every other field of every row (id, status, response,
resolved time, description, bus number, category, attachments, creation
time, incident time) is unchanged, whatever the row's status. -/
theorem C9_reaction_frame (store : List Complaint) (complaint_id : Nat)
    (reaction : String) (now : Int) :
    (set_chairman_reaction store complaint_id reaction now).map Complaint.id
        = store.map Complaint.id ∧
    (set_chairman_reaction store complaint_id reaction now).map Complaint.status
        = store.map Complaint.status ∧
    (set_chairman_reaction store complaint_id reaction now).map Complaint.org_response
        = store.map Complaint.org_response ∧
    (set_chairman_reaction store complaint_id reaction now).map Complaint.resolved_at
        = store.map Complaint.resolved_at ∧
    (set_chairman_reaction store complaint_id reaction now).map Complaint.details
        = store.map Complaint.details ∧
    (set_chairman_reaction store complaint_id reaction now).map Complaint.bus_number
        = store.map Complaint.bus_number ∧
    (set_chairman_reaction store complaint_id reaction now).map Complaint.problem_type
        = store.map Complaint.problem_type ∧
    (set_chairman_reaction store complaint_id reaction now).map Complaint.photo_paths
        = store.map Complaint.photo_paths ∧
    (set_chairman_reaction store complaint_id reaction now).map Complaint.created_at
        = store.map Complaint.created_at ∧
    (set_chairman_reaction store complaint_id reaction now).map Complaint.complaint_datetime
        = store.map Complaint.complaint_datetime := by
  refine ⟨?_, ?_, ?_, ?_, ?_, ?_, ?_, ?_, ?_, ?_⟩ <;>
  · unfold set_chairman_reaction
    apply map_map_eq
    intro c _
    by_cases hc : c.id = complaint_id <;> simp [hc]

/-- C10: applying `update_complaint_status` with an absent response
overwrites the stored `org_response` with NULL on the targeted row: the
SQL sets `org_response = ?` unconditionally, so a prior response is
cleared rather than kept. -/
theorem C10_absent_response_clears_stored_response
    (store : List Complaint) (complaint_id : Nat) (status : String)
    (now : Int) :
    ∀ c2 ∈ update_complaint_status store complaint_id status none now,
      c2.id = complaint_id → c2.org_response = none := by
  intro c2 hc2 hid
  unfold update_complaint_status at hc2
  rw [List.mem_map] at hc2
  obtain ⟨c, hc, rfl⟩ := hc2
  by_cases h : c.id = complaint_id
  · simp [h]
  · rw [if_neg h] at hid
    exact absurd hid h

/-- Witness for C10 at a concrete input: `sampleResp` holds response
`some "done"`; updating its status with an absent response clears it. -/
theorem C10_absent_response_clears_stored_response_witness :
    sampleResp.org_response = some "done" ∧
    sampleRespUpdated ∈ update_complaint_status [sampleResp] 1 "In Progress" none 9 ∧
    sampleRespUpdated.org_response = none :=
  ⟨by decide, by decide,
    C10_absent_response_clears_stored_response [sampleResp] 1 "In Progress" 9
      sampleRespUpdated (by decide) (by decide)⟩

/-- C3 counterexample: a draft with vehicle number 0 (not positive) and a
non-empty description is accepted and persisted — the create path never
validates the vehicle number. -/
theorem C3_counterexample :
    submit_complaint [] 0 0 "Delay" "fifteen minutes late" [] 0 =
      .ok [⟨1, 0, 0, "Delay", "fifteen minutes late", [], "Open", none, 0,
        0, none, none⟩] ∧
    ¬ (0 : Int) > 0 :=
  ⟨rfl, by decide⟩

/-- C3 amended: the create operation fails (persisting nothing) exactly
when the description is empty after stripping; the vehicle number is not
validated, so even a non-positive vehicle number is accepted and a record
is persisted. -/
theorem C3_create_validates_description_only
    (store : List Complaint) (bus_number complaint_dt : Int)
    (problem_type details : String) (photo_paths : List String)
    (now : Int) :
    (pyStrip details = "" →
      submit_complaint store bus_number complaint_dt problem_type details
          photo_paths now
        = .error .validationError) ∧
    (pyStrip details ≠ "" →
      ∃ c, submit_complaint store bus_number complaint_dt problem_type
          details photo_paths now
        = .ok (store ++ [c]) ∧
        c.bus_number = bus_number ∧ c.details = details ∧
        c.status = "Open") := by
  constructor
  · intro h
    unfold submit_complaint
    rw [if_pos h]
  · intro h
    unfold submit_complaint insert_complaint
    rw [if_neg h]
    exact ⟨_, rfl, rfl, rfl, rfl⟩

/-- Witness for C3 (amended) at concrete inputs: blank description is
rejected; vehicle number -3 with a real description is persisted. -/
theorem C3_create_validates_description_only_witness :
    (submit_complaint [] 5 0 "Delay" "   " [] 0
      = .error .validationError) ∧
    (∃ c, submit_complaint [] (-3) 0 "Delay" "late" [] 0
      = .ok ([] ++ [c]) ∧
      c.bus_number = -3 ∧ c.details = "late" ∧ c.status = "Open") :=
  ⟨(C3_create_validates_description_only [] 5 0 "Delay" "   " [] 0).1
      (by decide),
   (C3_create_validates_description_only [] (-3) 0 "Delay" "late" [] 0).2
      (by decide)⟩

/-- The durations the code collects are exactly the per-row resolution
hours of the rows the spec selects. -/
theorem resolutionDurations_eq_spec (rows : List Complaint) :
    resolutionDurations rows
      = (specResolvedRows rows).map fun r =>
          ((r.resolved_at.getD 0 - r.created_at : Int) : ℚ) / 3600 := by
  induction rows with
  | nil => rfl
  | cons r rs ih =>
    cases h : r.resolved_at <;>
      simp [resolutionDurations, specResolvedRows, List.filterMap_cons,
        List.filter_cons, h] <;>
      simpa [resolutionDurations, specResolvedRows] using ih

/-- C5: the average-resolution-hours metric equals the spec's arithmetic
mean over rows with `resolved_at` present, and is absent exactly when no
row has `resolved_at` set — in particular it is never a false zero for an
all-unresolved set. -/
theorem C5_averageResolutionHours_correct (rows : List Complaint) :
    averageResolutionHours rows = specAverageResolutionHours rows ∧
    (averageResolutionHours rows = none
      ↔ (rows.all fun r => r.resolved_at.isNone) = true) := by
  constructor
  · unfold averageResolutionHours specAverageResolutionHours
    rw [resolutionDurations_eq_spec]
    rcases specResolvedRows rows with _ | ⟨a, l⟩ <;> simp
  · unfold averageResolutionHours
    by_cases h : (resolutionDurations rows).isEmpty = true
    · rw [if_pos h]
      rw [List.isEmpty_iff] at h
      unfold resolutionDurations at h
      rw [List.filterMap_eq_nil_iff] at h
      simp only [true_iff, List.all_eq_true]
      intro r hr
      have h2 := h r hr
      simp only [Option.map_eq_none'] at h2
      simp [h2]
    · rw [if_neg h]
      constructor
      · intro hsome
        exact absurd hsome (Option.some_ne_none _)
      · intro hall
        exfalso
        apply h
        rw [List.isEmpty_iff]
        unfold resolutionDurations
        rw [List.filterMap_eq_nil_iff]
        intro r hr
        rw [List.all_eq_true] at hall
        have h2 := hall r hr
        rw [Option.isNone_iff_eq_none] at h2
        rw [h2]
        rfl

/-- C6 counterexample: `tieA` (id 1) and `tieB` (id 2) share the same
`complaint_datetime`; an unfiltered fetch returns them in id-ascending
order, not the id-descending tie-break the claim states. -/
theorem C6_counterexample :
    tieA.complaint_datetime = tieB.complaint_datetime ∧ tieA.id < tieB.id ∧
    fetch_complaints [tieA, tieB] none none none none none
      = [tieA, tieB] := by decide

/-- C6 amended: for every filter, the list operation returns exactly the
selected complaints (a permutation of the filtered store) ordered by
`complaint_datetime` descending; the query applies no id tie-break, ties
are emitted in underlying storage order. -/
theorem C6_list_ordering (store : List Complaint) (bus : Option Int)
    (problem : Option String) (status : Option String)
    (start_date end_date : Option Int) :
    List.Sorted newestFirst
      (fetch_complaints store bus problem status start_date end_date) ∧
    List.Perm (fetch_complaints store bus problem status start_date end_date)
      (store.filter (rowFilter bus problem status start_date end_date)) :=
  ⟨List.sorted_insertionSort newestFirst _,
   List.perm_insertionSort newestFirst _⟩

/-- A bare `%` pattern matches every text. -/
theorem allTails_any_isEmpty (t : List Char) :
    ((allTails t).any fun s => s.isEmpty) = true := by
  induction t with
  | nil => rfl
  | cons c t ih => simp [allTails, ih]

/-- Unfolding step for a leading `%` against a nonempty text. -/
theorem likeMatch_percent_cons (p : List Char) (d : Char) (t : List Char) :
    likeMatch ('%' :: p) (d :: t)
      = (likeMatch p (d :: t) || likeMatch ('%' :: p) t) := by
  simp [likeMatch, allTails]

/-- A wildcard-free pattern followed by `%` matches a text exactly when
the pattern is a case-folded prefix of it. -/
theorem likeMatch_prefix (n : List Char) (hn : wildcardFree n = true) :
    ∀ t, likeMatch (n ++ ['%']) t
      = isPrefixB (n.map likeFold) (t.map likeFold) := by
  induction n with
  | nil =>
    intro t
    simp [likeMatch, isPrefixB, allTails_any_isEmpty t]
  | cons c n ih =>
    simp only [wildcardFree, List.all_cons, Bool.and_eq_true,
      Bool.not_eq_true', Bool.or_eq_false_iff, beq_eq_false_iff_ne] at hn
    have hpc : (c == '%') = false := beq_eq_false_iff_ne.mpr hn.1.1
    have huc : (c == '_') = false := beq_eq_false_iff_ne.mpr hn.1.2
    intro t
    cases t with
    | nil => simp [likeMatch, isPrefixB, hpc]
    | cons d t2 =>
      simp [likeMatch, isPrefixB, hpc, huc, ih hn.2 t2]

/-- `%pattern%` with a wildcard-free core matches a text exactly when the
core is a case-folded substring of it. -/
theorem likeMatch_substr (n : List Char) (hn : wildcardFree n = true)
    (t : List Char) :
    likeMatch ('%' :: (n ++ ['%'])) t
      = isInfixB (n.map likeFold) (t.map likeFold) := by
  induction t with
  | nil =>
    simp [likeMatch, allTails, isInfixB, likeMatch_prefix n hn []]
  | cons d t2 ih =>
    rw [likeMatch_percent_cons, ih, likeMatch_prefix n hn (d :: t2)]
    simp [isInfixB]

/-- C7 counterexample: the stored category is `Delay`; the filter string
`delay` is not a case-sensitive substring of it, yet the list operation
selects the complaint, because SQLite `LIKE` compares ASCII letters
case-insensitively. -/
theorem C7_counterexample :
    fetch_complaints [cDelay] none (some "delay") none none none
      = [cDelay] ∧
    isInfixB "delay".toList "Delay".toList = false := by decide

/-- C7 amended: for a nonempty, wildcard-free filter string, the list
operation selects exactly the complaints whose category contains the
filter as a case-insensitive (ASCII case-folded) substring; a `%` or `_`
in the filter would additionally act as a `LIKE` wildcard. -/
theorem C7_categoryContains_case_insensitive (store : List Complaint)
    (p : String) (c : Complaint) (hp : p ≠ "")
    (hw : wildcardFree p.toList = true) :
    c ∈ fetch_complaints store none (some p) none none none
      ↔ c ∈ store ∧
        isInfixB (p.toList.map likeFold)
          (c.problem_type.toList.map likeFold) = true := by
  unfold fetch_complaints
  rw [List.mem_insertionSort, List.mem_filter]
  apply and_congr Iff.rfl
  have hp2 : (p == "") = false := beq_eq_false_iff_ne.mpr hp
  simp only [rowFilter, hp2, List.cons_append, Bool.true_and, Bool.and_true,
    Bool.false_or]
  rw [likeMatch_substr p.toList hw]

/-- Witness for C7 (amended) at a concrete input: filter `lay` against
category `Delay`. -/
theorem C7_categoryContains_case_insensitive_witness :
    ("lay" : String) ≠ "" ∧ wildcardFree "lay".toList = true ∧
    (cDelay ∈ fetch_complaints [cDelay] none (some "lay") none none none
      ↔ cDelay ∈ [cDelay] ∧
        isInfixB ("lay".toList.map likeFold)
          (cDelay.problem_type.toList.map likeFold) = true) :=
  ⟨by decide, by decide,
    C7_categoryContains_case_insensitive [cDelay] "lay" cDelay (by decide)
      (by decide)⟩

/-- C8: with a collision-free digest, registering an identity and then
authenticating with the same username and secret returns that identity
(same role, stripped username), while authenticating with any other
secret returns nothing, i.e. `AuthenticationFailed`. -/
theorem C8_register_then_authenticate (H : String → String)
    (hH : Function.Injective H) (store : List UserRec)
    (username password role : String) (store2 : List UserRec)
    (hreg : register_user H store username password role = .ok store2) :
    (∃ u, fetch_user H store2 username password = some u ∧
      u.role = role ∧ u.username = pyStrip username) ∧
    ∀ password2, password2 ≠ password →
      fetch_user H store2 username password2 = none := by
  unfold register_user at hreg
  by_cases hdup : store.any (fun u => u.username == pyStrip username) = true
  · rw [if_pos hdup] at hreg
    cases hreg
  · rw [if_neg hdup] at hreg
    injection hreg with hreg
    subst hreg
    rw [Bool.not_eq_true, List.any_eq_false] at hdup
    have hnone : ∀ u ∈ store, (u.username == pyStrip username) = false :=
      fun u hu => by simpa using hdup u hu
    constructor
    · refine ⟨⟨nextUserId store, pyStrip username, H password, role⟩,
        ?_, rfl, rfl⟩
      unfold fetch_user
      rw [find?_append_right _ _ _ fun u hu => by simp [hnone u hu]]
      simp [List.find?]
    · intro password2 hne
      unfold fetch_user
      rw [find?_append_right _ _ _ fun u hu => by simp [hnone u hu]]
      have hpw : (H password == H password2) = false := by
        apply beq_eq_false_iff_ne.mpr
        intro hEq
        exact hne (hH hEq).symm
      simp [List.find?, hpw]

/-- Witness for C8 at a concrete input: register ann with secret pw123
and role Operator (the identity digest is injective), then authenticate
with the right and with a wrong secret. -/
theorem C8_register_then_authenticate_witness :
    (∃ u, fetch_user id annStore "ann" "pw123" = some u ∧
      u.role = "Operator" ∧ u.username = pyStrip "ann") ∧
    fetch_user id annStore "ann" "wrong" = none := by
  have h := C8_register_then_authenticate id (fun _ _ hab => hab) []
    "ann" "pw123" "Operator" annStore rfl
  exact ⟨h.1, h.2 "wrong" (by decide)⟩

end VanTracker
